import Mathlib

/-!
Shallow embedding of the classification-and-cohort-analytics engine of the
stripe-dashboard repository, together with theorems settling the frozen
claims about it.

Conventions used throughout the embedding:
* JavaScript numbers are modelled as exact rationals; all the literals that
  occur in the source (100, 12, 4.33, 30) are exactly representable and the
  arithmetic the source performs on realistic inputs stays within the range
  where double-precision arithmetic is exact or the spec treats it as exact.
* ISO date strings (YYYY-MM-DD) compare lexicographically exactly like the
  calendar days they denote, so dates are modelled as natural numbers.
* A nullable JavaScript field is an Option.  A Stripe timestamp, when
  present, is a positive integer, so the truthiness test the source applies
  to such a field coincides with Option.isSome.  A numeric field that can
  legitimately be 0 (percent_off, amount_off) gets the genuine JavaScript
  truthiness test: present and nonzero.
-/

namespace StripeDashboard

/-- A coupon attached to a discount, from the Stripe subscription object:
percent_off and amount_off are each nullable numbers. -/
structure Coupon where
  percent_off : Option ℚ
  amount_off : Option ℚ
  deriving DecidableEq

/-- The discount object of a subscription; its coupon field is nullable. -/
structure Discount where
  coupon : Option Coupon
  deriving DecidableEq

/-- One subscription line item: a price unit amount in cents and a
quantity. -/
structure LineItem where
  unit_amount : ℚ
  quantity : ℚ
  deriving DecidableEq

/-- The Stripe subscription object, restricted to the fields the
classification functions read. -/
structure Subscription where
  status : String
  canceled_at : Option ℕ
  discount : Option Discount
  items : List LineItem
  trial_end : Option ℕ
  deriving DecidableEq

/-- The Stripe customer object, restricted to the fields read. -/
structure Customer where
  email : Option String
  deriving DecidableEq

/-- JavaScript truthiness of a nullable numeric field: present and
nonzero. -/
def truthyNum (o : Option ℚ) : Bool :=
  match o with
  | none => false
  | some v => v ≠ 0

/-- JavaScript Math.round: round half toward positive infinity. -/
def jsRound (q : ℚ) : ℤ :=
  ⌊q + 1 / 2⌋

/-- The total subscription line-item amount in cents:
items.data.reduce((sum, item) => sum + item.price.unit_amount * item.quantity, 0). -/
def subscriptionAmount (s : Subscription) : ℚ :=
  (s.items.map (fun item => item.unit_amount * item.quantity)).sum

/-- calculateDiscountPercent from src/scripts/daily-sync.js (identical copies
in src/api/cron/daily-sync.js and src/server/index.js): no discount or no
coupon gives 0; a truthy percent_off is returned directly; otherwise a truthy
amount_off gives the rounded percentage of the total line-item amount when
that amount is positive; every remaining case gives 0. -/
def calculateDiscountPercent (s : Subscription) : ℚ :=
  match s.discount with
  | none => 0
  | some d =>
    match d.coupon with
    | none => 0
    | some coupon =>
      if truthyNum coupon.percent_off then coupon.percent_off.getD 0
      else if truthyNum coupon.amount_off then
        let amount := subscriptionAmount s
        if amount > 0 then (jsRound (coupon.amount_off.getD 0 / amount * 100) : ℚ)
        else 0
      else 0

/-- isSubscriptionActive: status is one of active, trialing, past_due. -/
def isSubscriptionActive (status : String) : Bool :=
  status = "active" || status = "trialing" || status = "past_due"

/-- The email exclusion test the source applies:
customer.email && customer.email.endsWith('usebear.ai'). -/
def isExcludedEmail (email : Option String) : Bool :=
  match email with
  | none => false
  | some e => e.endsWith "usebear.ai"

/-- shouldCountSubscription from src/scripts/daily-sync.js (identical copies
in src/api/cron/daily-sync.js and src/server/index.js), with the source's
early-return structure. -/
def shouldCountSubscription (s : Subscription) (c : Customer) : Bool :=
  if s.status ≠ "active" then false
  else if s.canceled_at.isSome then false
  else if 100 ≤ calculateDiscountPercent s then false
  else if isExcludedEmail c.email then false
  else true

/-- shouldCountTrial from the same files: identical structure with the
status test replaced by trialing. -/
def shouldCountTrial (s : Subscription) (c : Customer) : Bool :=
  if s.status ≠ "trialing" then false
  else if s.canceled_at.isSome then false
  else if 100 ≤ calculateDiscountPercent s then false
  else if isExcludedEmail c.email then false
  else true

/-- normalizeToMonthly from src/scripts/daily-sync.js: cents are converted
to dollars and the result is scaled by the billing interval; 4.33 is the
average number of weeks per month and 30 the average number of days. -/
def normalizeToMonthly (amount : ℚ) (interval : String) : ℚ :=
  let amountInDollars := amount / 100
  if interval = "month" then amountInDollars
  else if interval = "year" then amountInDollars / 12
  else if interval = "week" then amountInDollars * (433 / 100)
  else if interval = "day" then amountInDollars * 30
  else amountInDollars

/-- Example input: a subscription carrying a 50-dollars-off coupon
(amount_off 5000 cents) on a single 100-dollar (10000 cents) line item. -/
def exAmountOffSubscription : Subscription :=
  { status := "active"
    canceled_at := none
    discount := some { coupon := some { percent_off := none, amount_off := some 5000 } }
    items := [{ unit_amount := 10000, quantity := 1 }]
    trial_end := none }

/-- One row of the canonical subscriptions table, restricted to the columns
the snapshot recorder selects. -/
structure SubscriptionRow where
  stripe_customer_id : String
  stripe_subscription_id : String
  customer_email : Option String
  customer_name : Option String
  subscription_status : String
  monthly_total : ℚ
  is_active : Bool
  is_counted : Bool
  is_trial_counted : Option Bool
  percent_off : ℚ
  deriving DecidableEq

/-- One row of the customer_retention_snapshots ledger.  Dates are day
numbers (ISO date strings compare exactly like the days they denote). -/
structure SnapshotRow where
  date : ℕ
  stripe_customer_id : String
  stripe_subscription_id : String
  customer_email : Option String
  customer_name : Option String
  subscription_status : String
  monthly_value : ℚ
  is_active : Bool
  is_counted : Bool
  is_trial_counted : Bool
  percent_off : ℚ
  deriving DecidableEq

/-- The snapshot row the recorder builds from one subscriptions-table row:
the per-row map inside saveCustomerRetentionSnapshots in
src/api/cron/daily-sync.js.  The source reads is_trial_counted with a
"|| false" default. -/
def snapshotRowOf (today : ℕ) (sub : SubscriptionRow) : SnapshotRow :=
  { date := today
    stripe_customer_id := sub.stripe_customer_id
    stripe_subscription_id := sub.stripe_subscription_id
    customer_email := sub.customer_email
    customer_name := sub.customer_name
    subscription_status := sub.subscription_status
    monthly_value := sub.monthly_total
    is_active := sub.is_active
    is_counted := sub.is_counted
    is_trial_counted := sub.is_trial_counted.getD false
    percent_off := sub.percent_off }

/-- The batch of customer snapshots the recorder prepares: one row per
subscriptions-table row, with no status filter and no merge of the
hardcoded records. -/
def customerSnapshotsOf (today : ℕ) (subs : List SubscriptionRow) : List SnapshotRow :=
  subs.map (snapshotRowOf today)

/-- saveCustomerRetentionSnapshots from src/api/cron/daily-sync.js, acting
on the ledger state: rows dated today are deleted, then the freshly built
batch is inserted (the paging of the insert into fixed-size batches does
not change the resulting row set on the happy path embedded here). -/
def saveCustomerRetentionSnapshots (today : ℕ) (subs : List SubscriptionRow)
    (ledger : List SnapshotRow) : List SnapshotRow :=
  ledger.filter (fun r => r.date != today) ++ customerSnapshotsOf today subs

/-- The manually curated records of config/hardcodedSubscriptions.js,
restricted to the identifying and revenue fields. -/
structure HardcodedSubscription where
  stripe_subscription_id : String
  customer_email : String
  customer_name : String
  subscription_status : String
  monthly_total : ℚ
  is_active : Bool
  is_counted : Bool
  deriving DecidableEq

/-- The five entries of config/hardcodedSubscriptions.js. -/
def hardcodedSubscriptions : List HardcodedSubscription :=
  [{ stripe_subscription_id := "manual_steph_moccio"
     customer_email := "steph@peerspace.com"
     customer_name := "Steph Moccio"
     subscription_status := "active"
     monthly_total := 500
     is_active := true
     is_counted := true },
   { stripe_subscription_id := "manual_nick_scott"
     customer_email := "nick@dabble.com"
     customer_name := "Nick Scott"
     subscription_status := "active"
     monthly_total := 1000
     is_active := true
     is_counted := true },
   { stripe_subscription_id := "manual_moody"
     customer_email := "moody@klarify.com"
     customer_name := "Moody Abdul"
     subscription_status := "active"
     monthly_total := 1100
     is_active := true
     is_counted := true },
   { stripe_subscription_id := "manual_speakers"
     customer_email := "tim@speakerscorner.com"
     customer_name := "Tim"
     subscription_status := "active"
     monthly_total := 2500
     is_active := true
     is_counted := true },
   { stripe_subscription_id := "ken"
     customer_email := "ken.colton@medal.tv"
     customer_name := "Ken"
     subscription_status := "active"
     monthly_total := 2000
     is_active := true
     is_counted := true }]

/-- Example input: a canceled, inactive subscriptions-table row. -/
def exCanceledRow : SubscriptionRow :=
  { stripe_customer_id := "cus_x"
    stripe_subscription_id := "sub_canceled_x"
    customer_email := some "x@example.com"
    customer_name := some "X"
    subscription_status := "canceled"
    monthly_total := 40
    is_active := false
    is_counted := false
    is_trial_counted := none
    percent_off := 0 }

/-- The metrics block of a retention response. -/
structure RetentionMetrics where
  previous_period_customers : ℕ
  current_period_customers : ℕ
  retained_customers : ℕ
  churned_customers : ℕ
  new_customers : ℕ
  deriving DecidableEq

/-- A retention response: the rounded rate and the metrics block. -/
structure RetentionResponse where
  retention_rate : ℚ
  metrics : RetentionMetrics
  deriving DecidableEq

/-- Rounding a rate to two decimals: Math.round(rate * 100) / 100. -/
def jsRound2 (q : ℚ) : ℚ :=
  (jsRound (q * 100) : ℚ) / 100

/-- The snapshot query of the N-day retention handler for one date: rows at
that date with is_counted = true. -/
def baselineRows (ledger : List SnapshotRow) (d : ℕ) : List SnapshotRow :=
  ledger.filter (fun r => r.date == d && r.is_counted)

/-- The subscription ids of a list of snapshot rows. -/
def subscriptionIdsOf (rows : List SnapshotRow) : List String :=
  rows.map (fun r => r.stripe_subscription_id)

/-- The handler of src/api/retention/calculate.js on the ledger state: the
baseline rows are the counted rows dated previousDate, the target id set
the counted subscription ids dated todayDate; each baseline row is retained
when its id is still in the target set, churned otherwise.  The source
echoes the baseline count as current_period_customers and reports
new_customers as the literal 0. -/
def calculateRetention (ledger : List SnapshotRow) (previousDate todayDate : ℕ) :
    RetentionResponse :=
  let previousSubscriptions := baselineRows ledger previousDate
  let todaySubscriptionIds := (subscriptionIdsOf (baselineRows ledger todayDate)).toFinset
  let retained := previousSubscriptions.filter
    (fun r => decide (r.stripe_subscription_id ∈ todaySubscriptionIds))
  let churned := previousSubscriptions.filter
    (fun r => !decide (r.stripe_subscription_id ∈ todaySubscriptionIds))
  let previousCount := previousSubscriptions.length
  let retainedCount := retained.length
  let churnedCount := churned.length
  let retentionRate : ℚ :=
    if 0 < previousCount then (retainedCount : ℚ) / (previousCount : ℚ) * 100 else 0
  { retention_rate := jsRound2 retentionRate
    metrics :=
      { previous_period_customers := previousCount
        current_period_customers := previousCount
        retained_customers := retainedCount
        churned_customers := churnedCount
        new_customers := 0 } }

/-- The deduplicated customer-id set of one period of rows in the weekly
handler: a JavaScript Map keyed by customer id keeping first occurrences,
then the Set of its keys. -/
def customerIdSet (rows : List SnapshotRow) : Finset String :=
  (rows.map (fun r => r.stripe_customer_id)).toFinset

/-- The set comparison of src/api/retention/weekly.js on the two customer
id sets: retained are the previous ids still present, churned the previous
ids gone, new the current ids not previously present. -/
def weeklyRetention (previousIds currentIds : Finset String) : RetentionResponse :=
  let retained := previousIds.filter (fun id => id ∈ currentIds)
  let churned := previousIds.filter (fun id => id ∉ currentIds)
  let newIds := currentIds.filter (fun id => id ∉ previousIds)
  let previousCount := previousIds.card
  let retentionRate : ℚ :=
    if 0 < previousCount then (retained.card : ℚ) / (previousCount : ℚ) * 100 else 0
  { retention_rate := jsRound2 retentionRate
    metrics :=
      { previous_period_customers := previousCount
        current_period_customers := currentIds.card
        retained_customers := retained.card
        churned_customers := churned.card
        new_customers := newIds.card } }

/-- Example input: a counted snapshot row on day 1 for a subscription that
has no baseline row on day 0. -/
def exNewSnapshotRow : SnapshotRow :=
  { date := 1
    stripe_customer_id := "cus_new"
    stripe_subscription_id := "sub_new"
    customer_email := some "new@example.com"
    customer_name := some "New"
    subscription_status := "active"
    monthly_value := 75
    is_active := true
    is_counted := true
    is_trial_counted := false
    percent_off := 0 }

/-- A Stripe charge, restricted to the fields the payment check reads. -/
structure Charge where
  refunded : Bool
  amount_refunded : ℤ
  status : String
  blocked : Bool
  deriving DecidableEq

/-- One refund of a payment intent. -/
structure Refund where
  amount : ℤ
  deriving DecidableEq

/-- A Stripe payment intent with its refund list. -/
structure PaymentIntent where
  status : String
  amount : ℤ
  refunds : List Refund
  deriving DecidableEq

/-- A Stripe invoice with its optional charge or payment intent.  Amounts
are integer cents. -/
structure Invoice where
  status : String
  amount_paid : ℤ
  charge : Option Charge
  payment_intent : Option PaymentIntent
  deriving DecidableEq

/-- The charge checks of hasSuccessfulPayment in
src/api/trial-conversion/calculate.js: not refunded, no amount refunded,
status succeeded, not blocked. -/
def chargeIsSuccessful (ch : Charge) : Bool :=
  !ch.refunded && ch.amount_refunded == 0 && ch.status == "succeeded" && !ch.blocked

/-- The payment-intent checks of hasSuccessfulPayment: status succeeded and
some amount remaining after summing all refunds. -/
def paymentIntentIsSuccessful (p : PaymentIntent) : Bool :=
  p.status == "succeeded" && decide ((p.refunds.map (fun r => r.amount)).sum < p.amount)

/-- The per-invoice body of the loop of hasSuccessfulPayment: a paid
invoice with a positive amount counts when its charge passes the charge
checks, or, with no charge, when its payment intent passes the
payment-intent checks. -/
def invoicePaymentSuccessful (inv : Invoice) : Bool :=
  inv.status == "paid" && decide (0 < inv.amount_paid) &&
    (match inv.charge with
     | some ch => chargeIsSuccessful ch
     | none =>
       match inv.payment_intent with
       | some p => paymentIntentIsSuccessful p
       | none => false)

/-- hasSuccessfulPayment from src/api/trial-conversion/calculate.js: the
loop over the customer invoices returns true on the first invoice passing
the checks. -/
def hasSuccessfulPayment (invoices : List Invoice) : Bool :=
  invoices.any invoicePaymentSuccessful

/-- The per-subscription outcome of the trial-conversion handler. -/
structure TrialOutcome where
  converted : Bool
  conversion_date : Option ℕ
  deriving DecidableEq

/-- The still-in-trial-today query of the handler: some snapshot row of
this subscription dated today has status trialing. -/
def stillTrialingToday (ledger : List SnapshotRow) (subId : String) (today : ℕ) : Bool :=
  ledger.any (fun r => r.stripe_subscription_id == subId && r.date == today &&
    r.subscription_status == "trialing")

/-- The conversion-date query of the handler: the earliest ledger date on
or after first_trial_date at which this subscription is counted (order by
date ascending, limit 1). -/
def firstCountedDateFrom (ledger : List SnapshotRow) (subId : String)
    (firstTrialDate : ℕ) : Option ℕ :=
  ((ledger.filter (fun r => r.stripe_subscription_id == subId && r.is_counted &&
      decide (firstTrialDate ≤ r.date))).map (fun r => r.date)).min?

/-- The per-subscription step of the trial-conversion handler in
src/api/trial-conversion/calculate.js: a subscription still trialing today
is skipped; otherwise converted is the result of the Stripe payment scan,
and the ledger is consulted only to date the conversion of a converted
subscription. -/
def processTrialSubscription (ledger : List SnapshotRow) (today : ℕ)
    (invoices : List Invoice) (subId : String) (firstTrialDate : ℕ) :
    Option TrialOutcome :=
  if stillTrialingToday ledger subId today then none
  else
    let converted := hasSuccessfulPayment invoices
    some { converted := converted
           conversion_date :=
             if converted then firstCountedDateFrom ledger subId firstTrialDate
             else none }

/-- Example input: the day-1 trial snapshot of a trial subscription. -/
def exTrialSnapshotRow : SnapshotRow :=
  { date := 1
    stripe_customer_id := "cus_trial"
    stripe_subscription_id := "sub_trial"
    customer_email := some "trial@example.com"
    customer_name := some "Trial"
    subscription_status := "trialing"
    monthly_value := 50
    is_active := true
    is_counted := false
    is_trial_counted := true
    percent_off := 0 }

/-- Example input: the day-10 counted snapshot of the same subscription. -/
def exCountedSnapshotRow : SnapshotRow :=
  { date := 10
    stripe_customer_id := "cus_trial"
    stripe_subscription_id := "sub_trial"
    customer_email := some "trial@example.com"
    customer_name := some "Trial"
    subscription_status := "active"
    monthly_value := 50
    is_active := true
    is_counted := true
    is_trial_counted := false
    percent_off := 0 }

/-- Example input: a ledger holding the day-1 trial row and the day-10
counted row. -/
def exTrialLedger : List SnapshotRow :=
  [exTrialSnapshotRow, exCountedSnapshotRow]

/-- Example input: a paid invoice whose charge passes every check. -/
def exPaidInvoice : Invoice :=
  { status := "paid"
    amount_paid := 999
    charge := some { refunded := false, amount_refunded := 0, status := "succeeded",
                     blocked := false }
    payment_intent := none }

end StripeDashboard

namespace StripeDashboard

/-- C1: shouldCountSubscription holds exactly when the status is active,
canceled_at is null, the computed discount percent is below 100 and the
customer email is not in the exclusion-domain set. -/
theorem C1_isCounted_iff (s : Subscription) (c : Customer) :
    shouldCountSubscription s c = true ↔
      (s.status = "active" ∧ s.canceled_at = none ∧
        calculateDiscountPercent s < 100 ∧ isExcludedEmail c.email = false) := by
  unfold shouldCountSubscription
  split_ifs with h1 h2 h3 h4
  · simp only [ne_eq, not_not] at h1
    simp [h1]
  · constructor
    · intro h; cases h
    · rintro ⟨-, hnone, -, -⟩
      rw [hnone] at h2
      cases h2
  · constructor
    · intro h; cases h
    · rintro ⟨-, -, hlt, -⟩
      exact absurd h3 (not_le.mpr hlt)
  · constructor
    · intro h; cases h
    · rintro ⟨-, -, -, hex⟩
      rw [hex] at h4
      cases h4
  · push_neg at h1
    refine ⟨fun _ => ⟨h1, ?_, ?_, ?_⟩, fun _ => rfl⟩
    · exact Option.not_isSome_iff_eq_none.mp (by simpa using h2)
    · exact lt_of_not_le h3
    · simpa using h4

end StripeDashboard

namespace StripeDashboard

/-- C2: shouldCountSubscription and shouldCountTrial are never both true for
the same record: the first requires status active, the second status
trialing. -/
theorem C2_counted_trial_disjoint (s : Subscription) (c : Customer) :
    ¬ (shouldCountSubscription s c = true ∧ shouldCountTrial s c = true) := by
  rintro ⟨h1, h2⟩
  have ha : s.status = "active" := by
    by_contra hne
    simp [shouldCountSubscription, hne] at h1
  have ht : s.status = "trialing" := by
    by_contra hne
    simp [shouldCountTrial, hne] at h2
  rw [ha] at ht
  exact absurd ht (by decide)

/-- C9 counterexample: the claim asserts normalizeMonthly(x, year) = x / 12
for all positive x, but the source first converts cents to dollars: at
x = 1200 the source yields 1, not 100. -/
theorem C9_counterexample :
    normalizeToMonthly 1200 "year" = 1 ∧ (1200 : ℚ) / 12 = 100 ∧
      normalizeToMonthly 1200 "year" ≠ (1200 : ℚ) / 12 := by
  refine ⟨?_, by norm_num, ?_⟩ <;> simp +decide [normalizeToMonthly] <;> norm_num

/-- C9 amended: with the cents-to-dollars conversion made explicit, a month
amount maps to amount / 100 dollars, a year amount to one twelfth of its
monthly image, a week amount to 4.33 times, a day amount to 30 times, and an
unknown interval is treated as already monthly; the two numeric examples of
the spec hold. -/
theorem C9_normalizeToMonthly (x : ℚ) (_hx : 0 < x) :
    normalizeToMonthly x "month" = x / 100 ∧
      normalizeToMonthly x "year" = normalizeToMonthly x "month" / 12 ∧
      normalizeToMonthly x "week" = x / 100 * (433 / 100) ∧
      normalizeToMonthly x "day" = x / 100 * 30 ∧
      (∀ interval : String, interval ∉ ["month", "year", "week", "day"] →
        normalizeToMonthly x interval = x / 100) ∧
      normalizeToMonthly 120000 "year" = 100 ∧
      normalizeToMonthly 70000 "week" = 3031 := by
  refine ⟨rfl, ?_, ?_, ?_, ?_, ?_, ?_⟩
  · simp +decide [normalizeToMonthly]
  · simp +decide [normalizeToMonthly]
  · simp +decide [normalizeToMonthly]
  · intro interval hmem
    simp only [List.mem_cons, List.mem_singleton, not_or] at hmem
    obtain ⟨h1, h2, h3, h4, -⟩ := hmem
    simp [normalizeToMonthly, h1, h2, h3, h4]
  · simp +decide [normalizeToMonthly]
    norm_num
  · simp +decide [normalizeToMonthly]
    norm_num

/-- C9 witness: the amended theorem applied at the concrete input 1200. -/
theorem C9_normalizeToMonthly_witness :
    (0 : ℚ) < 1200 ∧ normalizeToMonthly 1200 "month" = 12 := by
  refine ⟨by norm_num, ?_⟩
  have h := C9_normalizeToMonthly 1200 (by norm_num)
  rw [h.1]
  norm_num

/-- C10: calculateDiscountPercent returns a truthy percent_off directly; for
an amount-off coupon it returns the rounded percentage of the total
line-item amount, 0 when that base amount is not positive; a missing
discount object, missing coupon, or coupon with neither field truthy gives
0; the 50-dollars-off-on-100-dollars example yields 50. -/
theorem C10_discountPercent :
    (∀ s : Subscription, s.discount = none → calculateDiscountPercent s = 0) ∧
      (∀ s : Subscription, ∀ d : Discount, s.discount = some d → d.coupon = none →
        calculateDiscountPercent s = 0) ∧
      (∀ s : Subscription, ∀ d : Discount, ∀ k : Coupon,
        s.discount = some d → d.coupon = some k → truthyNum k.percent_off = true →
        calculateDiscountPercent s = k.percent_off.getD 0) ∧
      (∀ s : Subscription, ∀ d : Discount, ∀ k : Coupon,
        s.discount = some d → d.coupon = some k → truthyNum k.percent_off = false →
        truthyNum k.amount_off = true → 0 < subscriptionAmount s →
        calculateDiscountPercent s =
          (jsRound (k.amount_off.getD 0 / subscriptionAmount s * 100) : ℚ)) ∧
      (∀ s : Subscription, ∀ d : Discount, ∀ k : Coupon,
        s.discount = some d → d.coupon = some k → truthyNum k.percent_off = false →
        truthyNum k.amount_off = true → ¬ 0 < subscriptionAmount s →
        calculateDiscountPercent s = 0) ∧
      (∀ s : Subscription, ∀ d : Discount, ∀ k : Coupon,
        s.discount = some d → d.coupon = some k → truthyNum k.percent_off = false →
        truthyNum k.amount_off = false → calculateDiscountPercent s = 0) ∧
      calculateDiscountPercent exAmountOffSubscription = 50 := by
  refine ⟨?_, ?_, ?_, ?_, ?_, ?_, ?_⟩
  · intro s hd
    simp [calculateDiscountPercent, hd]
  · intro s d hd hc
    simp [calculateDiscountPercent, hd, hc]
  · intro s d k hd hc hp
    simp [calculateDiscountPercent, hd, hc, hp]
  · intro s d k hd hc hp ha hpos
    simp [calculateDiscountPercent, hd, hc, hp, ha, hpos]
  · intro s d k hd hc hp ha hpos
    simp [calculateDiscountPercent, hd, hc, hp, ha, hpos]
  · intro s d k hd hc hp ha
    simp [calculateDiscountPercent, hd, hc, hp, ha]
  · norm_num [calculateDiscountPercent, exAmountOffSubscription, truthyNum,
      subscriptionAmount, jsRound]

/-- C10 witness: the characterization applied to the concrete 50-off
subscription, whose discount object is present with a truthy amount_off. -/
theorem C10_discountPercent_witness :
    calculateDiscountPercent exAmountOffSubscription = 50 :=
  C10_discountPercent.2.2.2.2.2.2

end StripeDashboard

namespace StripeDashboard

/-- Every row of a freshly built batch is dated today, so the delete step of
a re-run removes the whole batch. -/
theorem filter_customerSnapshotsOf (today : ℕ) (subs : List SubscriptionRow) :
    (customerSnapshotsOf today subs).filter (fun r => r.date != today) = [] := by
  refine List.filter_eq_nil_iff.mpr ?_
  intro r hr
  simp only [customerSnapshotsOf, List.mem_map] at hr
  obtain ⟨sub, -, rfl⟩ := hr
  simp [snapshotRowOf]

/-- C7: running the snapshot recorder twice for the same date leaves the
ledger exactly as one run does: the delete-rows-for-today step removes the
previously inserted batch before the identical batch is inserted again. -/
theorem C7_recorder_idempotent (today : ℕ) (subs : List SubscriptionRow)
    (ledger : List SnapshotRow) :
    saveCustomerRetentionSnapshots today subs
        (saveCustomerRetentionSnapshots today subs ledger) =
      saveCustomerRetentionSnapshots today subs ledger := by
  unfold saveCustomerRetentionSnapshots
  rw [List.filter_append, filter_customerSnapshotsOf, List.append_nil,
    List.filter_filter]
  congr 1
  apply List.filter_congr
  intro r _
  simp

/-- C8 counterexample: the snapshot batch is not one row per active record
plus the manually curated records.  A canceled, inactive table row is
written to the batch even though it is neither active nor manually curated,
and a run over an empty subscriptions table writes nothing although the
manually curated list is not empty. -/
theorem C8_counterexample :
    snapshotRowOf 7 exCanceledRow ∈ saveCustomerRetentionSnapshots 7 [exCanceledRow] [] ∧
      exCanceledRow.is_active = false ∧
      exCanceledRow.stripe_subscription_id ∉
        hardcodedSubscriptions.map (fun h => h.stripe_subscription_id) ∧
      saveCustomerRetentionSnapshots 7 [] [] = [] ∧
      hardcodedSubscriptions ≠ [] := by
  refine ⟨?_, rfl, ?_, rfl, by simp [hardcodedSubscriptions]⟩
  · simp [saveCustomerRetentionSnapshots, customerSnapshotsOf]
  · simp +decide [hardcodedSubscriptions, exCanceledRow]

/-- C8 amended: on each run the recorder writes exactly one snapshot row per
row of the subscriptions table, whatever its status, built by the per-row
map; the manually curated records are not part of the written batch, whose
rows all carry subscription ids drawn from the table. -/
theorem C8_snapshot_batch (today : ℕ) (subs : List SubscriptionRow) :
    (customerSnapshotsOf today subs).length = subs.length ∧
      (∀ r : SnapshotRow, r ∈ customerSnapshotsOf today subs ↔
        ∃ sub ∈ subs, r = snapshotRowOf today sub) ∧
      (∀ r : SnapshotRow, r ∈ customerSnapshotsOf today subs →
        r.stripe_subscription_id ∈ subs.map (fun sub => sub.stripe_subscription_id)) := by
  refine ⟨List.length_map _ _, ?_, ?_⟩
  · intro r
    simp only [customerSnapshotsOf, List.mem_map]
    constructor
    · rintro ⟨sub, hsub, rfl⟩
      exact ⟨sub, hsub, rfl⟩
    · rintro ⟨sub, hsub, rfl⟩
      exact ⟨sub, hsub, rfl⟩
  · intro r hr
    simp only [customerSnapshotsOf, List.mem_map] at hr
    obtain ⟨sub, hsub, rfl⟩ := hr
    exact List.mem_map.mpr ⟨sub, hsub, rfl⟩

/-- C8 witness: the batch characterization applied to a concrete one-row
table. -/
theorem C8_snapshot_batch_witness :
    snapshotRowOf 7 exCanceledRow ∈ customerSnapshotsOf 7 [exCanceledRow] := by
  have h := (C8_snapshot_batch 7 [exCanceledRow]).2.1 (snapshotRowOf 7 exCanceledRow)
  exact h.mpr ⟨exCanceledRow, by simp, rfl⟩

end StripeDashboard

namespace StripeDashboard

/-- The two-decimal rounding preserves nonnegativity. -/
theorem jsRound2_nonneg {q : ℚ} (h : 0 ≤ q) : 0 ≤ jsRound2 q := by
  unfold jsRound2 jsRound
  have hfloor : (0 : ℤ) ≤ ⌊q * 100 + 1 / 2⌋ := by
    apply Int.floor_nonneg.mpr
    positivity
  have : (0 : ℚ) ≤ (⌊q * 100 + 1 / 2⌋ : ℚ) := by exact_mod_cast hfloor
  positivity

/-- The two-decimal rounding of a rate at most 100 stays at most 100. -/
theorem jsRound2_le_100 {q : ℚ} (h : q ≤ 100) : jsRound2 q ≤ 100 := by
  unfold jsRound2 jsRound
  have hlt : q * 100 + 1 / 2 < 10001 := by nlinarith
  have hfloor : ⌊q * 100 + 1 / 2⌋ < 10001 := Int.floor_lt.mpr (by exact_mod_cast hlt)
  have hle : ⌊q * 100 + 1 / 2⌋ ≤ 10000 := by omega
  have : ((⌊q * 100 + 1 / 2⌋ : ℤ) : ℚ) ≤ 10000 := by exact_mod_cast hle
  linarith

/-- Rounding the zero rate gives zero. -/
theorem jsRound2_zero : jsRound2 0 = 0 := by
  norm_num [jsRound2, jsRound]

/-- The guarded rate of a cohort comparison is between 0 and 100 whenever
the retained count is at most the baseline count. -/
theorem rate_bounds_aux (k n : ℕ) (hkn : k ≤ n) :
    0 ≤ jsRound2 (if 0 < n then (k : ℚ) / (n : ℚ) * 100 else 0) ∧
      jsRound2 (if 0 < n then (k : ℚ) / (n : ℚ) * 100 else 0) ≤ 100 := by
  have h0 : (0 : ℚ) ≤ (if 0 < n then (k : ℚ) / (n : ℚ) * 100 else 0) := by
    split
    · positivity
    · exact le_refl 0
  have h100 : (if 0 < n then (k : ℚ) / (n : ℚ) * 100 else 0) ≤ 100 := by
    split
    · rename_i hn
      have hnq : (0 : ℚ) < (n : ℚ) := by exact_mod_cast hn
      have hdiv : (k : ℚ) / (n : ℚ) ≤ 1 := by
        rw [div_le_one hnq]
        exact_mod_cast hkn
      nlinarith
    · norm_num
  exact ⟨jsRound2_nonneg h0, jsRound2_le_100 h100⟩

end StripeDashboard

namespace StripeDashboard

/-- C4: when the baseline date has no snapshot rows the N-day retention
handler returns the successful empty-metrics response with rate 0 and all
counts 0; the zero previous-period count is a faithful marker, holding
exactly when the baseline has no counted rows, so the result is never
confusable with a genuine 0 percent retention, which requires a nonempty
baseline count. -/
theorem C4_missing_baseline (ledger : List SnapshotRow) (d t : ℕ) :
    ((∀ r ∈ ledger, r.date ≠ d) →
      calculateRetention ledger d t =
        { retention_rate := 0
          metrics :=
            { previous_period_customers := 0
              current_period_customers := 0
              retained_customers := 0
              churned_customers := 0
              new_customers := 0 } }) ∧
      ((calculateRetention ledger d t).metrics.previous_period_customers = 0 ↔
        baselineRows ledger d = []) := by
  constructor
  · intro hnone
    have hbase : baselineRows ledger d = [] := by
      refine List.filter_eq_nil_iff.mpr ?_
      intro r hr
      simp [hnone r hr]
    simp [calculateRetention, hbase, jsRound2_zero]
  · have hproj : (calculateRetention ledger d t).metrics.previous_period_customers =
        (baselineRows ledger d).length := rfl
    rw [hproj]
    exact List.length_eq_zero

/-- C4 witness: the empty ledger at baseline day 0. -/
theorem C4_missing_baseline_witness :
    calculateRetention [] 0 0 =
      { retention_rate := 0
        metrics :=
          { previous_period_customers := 0
            current_period_customers := 0
            retained_customers := 0
            churned_customers := 0
            new_customers := 0 } } :=
  (C4_missing_baseline [] 0 0).1 (by intro r hr; cases hr)

/-- C6: the rounded retention rate of both cohort comparators always lies
in [0, 100], and it is exactly 0 on an empty baseline; in this exact
rational embedding the division is taken only under the positive-baseline
guard, which is what rules NaN out in the source. -/
theorem C6_rate_bounds :
    (∀ (ledger : List SnapshotRow) (d t : ℕ),
      0 ≤ (calculateRetention ledger d t).retention_rate ∧
        (calculateRetention ledger d t).retention_rate ≤ 100 ∧
        (baselineRows ledger d = [] →
          (calculateRetention ledger d t).retention_rate = 0)) ∧
      (∀ previousIds currentIds : Finset String,
        0 ≤ (weeklyRetention previousIds currentIds).retention_rate ∧
          (weeklyRetention previousIds currentIds).retention_rate ≤ 100 ∧
          (previousIds = ∅ →
            (weeklyRetention previousIds currentIds).retention_rate = 0)) := by
  constructor
  · intro ledger d t
    have hle : ((baselineRows ledger d).filter
          (fun r => decide (r.stripe_subscription_id ∈
            (subscriptionIdsOf (baselineRows ledger t)).toFinset))).length ≤
        (baselineRows ledger d).length := List.length_filter_le _ _
    have hb := rate_bounds_aux _ _ hle
    refine ⟨hb.1, hb.2, fun hbase => ?_⟩
    simp [calculateRetention, hbase, jsRound2_zero]
  · intro previousIds currentIds
    have hle : (previousIds.filter (fun id => id ∈ currentIds)).card ≤
        previousIds.card := Finset.card_filter_le _ _
    have hb := rate_bounds_aux _ _ hle
    refine ⟨hb.1, hb.2, fun hempty => ?_⟩
    simp [weeklyRetention, hempty, jsRound2_zero]

/-- C6 witness: the bounds and the empty-baseline case at concrete inputs. -/
theorem C6_rate_bounds_witness :
    0 ≤ (calculateRetention [] 0 0).retention_rate ∧
      (weeklyRetention ∅ ∅).retention_rate = 0 :=
  ⟨(C6_rate_bounds.1 [] 0 0).1, (C6_rate_bounds.2 ∅ ∅).2.2 rfl⟩

end StripeDashboard

namespace StripeDashboard

/-- Filtering rows by a predicate on their subscription id keeps as many
rows as filtering the projected id list. -/
theorem length_filter_by_id (rows : List SnapshotRow) (p : String → Bool) :
    (rows.filter (fun r => p r.stripe_subscription_id)).length =
      ((subscriptionIdsOf rows).filter p).length := by
  unfold subscriptionIdsOf
  induction rows with
  | nil => rfl
  | cons r rows ih =>
    simp only [List.map_cons, List.filter_cons]
    by_cases h : p r.stripe_subscription_id
    · simp [h, ih]
    · simp [h, ih]

/-- On a duplicate-free id list, the membership filter counts the
intersection with the target set. -/
theorem length_filter_mem_card (l : List String) (hl : l.Nodup) (B : Finset String) :
    (l.filter (fun i => decide (i ∈ B))).length = (l.toFinset ∩ B).card := by
  rw [← List.toFinset_card_of_nodup (hl.filter _), List.toFinset_filter]
  congr 1
  ext x
  simp [Finset.mem_filter]

/-- On a duplicate-free id list, the non-membership filter counts the
difference from the target set. -/
theorem length_filter_not_mem_card (l : List String) (hl : l.Nodup) (B : Finset String) :
    (l.filter (fun i => !decide (i ∈ B))).length = (l.toFinset \ B).card := by
  rw [← List.toFinset_card_of_nodup (hl.filter _), List.toFinset_filter]
  congr 1
  ext x
  simp [Finset.mem_filter, Finset.mem_sdiff]

/-- C5 counterexample: with an empty baseline and one counted target row,
the set difference target minus baseline has one element, yet the N-day
handler reports new_customers as 0 (the field is the literal 0 in the
source), so the claimed count equality fails there. -/
theorem C5_counterexample :
    (calculateRetention [exNewSnapshotRow] 0 1).metrics.new_customers = 0 ∧
      ((subscriptionIdsOf (baselineRows [exNewSnapshotRow] 1)).toFinset \
          (subscriptionIdsOf (baselineRows [exNewSnapshotRow] 0)).toFinset).card = 1 := by
  constructor
  · rfl
  · rfl

/-- C5 amended: the weekly comparator computes retained, churned and new as
the intersection and the two differences of the customer id sets, with the
partition identities and counts equal to the set sizes; the N-day handler
computes retained and churned the same way on subscription id sets
(baseline ids are duplicate-free under the ledger unique key), but always
reports new_customers as 0 and echoes the baseline count as the current
period count. -/
theorem C5_cohort_sets :
    (∀ previousIds currentIds : Finset String,
      previousIds.filter (fun id => id ∈ currentIds) = previousIds ∩ currentIds ∧
        previousIds.filter (fun id => id ∉ currentIds) = previousIds \ currentIds ∧
        currentIds.filter (fun id => id ∉ previousIds) = currentIds \ previousIds ∧
        previousIds ∩ currentIds ∪ previousIds \ currentIds = previousIds ∧
        previousIds ∩ currentIds ∪ currentIds \ previousIds = currentIds ∧
        (weeklyRetention previousIds currentIds).metrics.retained_customers =
          (previousIds ∩ currentIds).card ∧
        (weeklyRetention previousIds currentIds).metrics.churned_customers =
          (previousIds \ currentIds).card ∧
        (weeklyRetention previousIds currentIds).metrics.new_customers =
          (currentIds \ previousIds).card ∧
        (weeklyRetention previousIds currentIds).metrics.previous_period_customers =
          previousIds.card ∧
        (weeklyRetention previousIds currentIds).metrics.current_period_customers =
          currentIds.card) ∧
      (∀ (ledger : List SnapshotRow) (d t : ℕ),
        (subscriptionIdsOf (baselineRows ledger d)).Nodup →
        (calculateRetention ledger d t).metrics.retained_customers =
            ((subscriptionIdsOf (baselineRows ledger d)).toFinset ∩
              (subscriptionIdsOf (baselineRows ledger t)).toFinset).card ∧
          (calculateRetention ledger d t).metrics.churned_customers =
            ((subscriptionIdsOf (baselineRows ledger d)).toFinset \
              (subscriptionIdsOf (baselineRows ledger t)).toFinset).card ∧
          (calculateRetention ledger d t).metrics.new_customers = 0 ∧
          (calculateRetention ledger d t).metrics.current_period_customers =
            (calculateRetention ledger d t).metrics.previous_period_customers) := by
  constructor
  · intro previousIds currentIds
    have hinter : previousIds.filter (fun id => id ∈ currentIds) =
        previousIds ∩ currentIds := by
      ext x; simp [Finset.mem_filter]
    have hsdiff : previousIds.filter (fun id => id ∉ currentIds) =
        previousIds \ currentIds := by
      ext x; simp [Finset.mem_filter, Finset.mem_sdiff]
    have hnew : currentIds.filter (fun id => id ∉ previousIds) =
        currentIds \ previousIds := by
      ext x; simp [Finset.mem_filter, Finset.mem_sdiff]
    refine ⟨hinter, hsdiff, hnew, ?_, ?_, ?_, ?_, ?_, rfl, rfl⟩
    · ext x; simp [Finset.mem_sdiff]; tauto
    · ext x; simp [Finset.mem_sdiff]; tauto
    · show (previousIds.filter (fun id => id ∈ currentIds)).card = _
      rw [hinter]
    · show (previousIds.filter (fun id => id ∉ currentIds)).card = _
      rw [hsdiff]
    · show (currentIds.filter (fun id => id ∉ previousIds)).card = _
      rw [hnew]
  · intro ledger d t hnd
    refine ⟨?_, ?_, rfl, rfl⟩
    · exact (length_filter_by_id (baselineRows ledger d)
          (fun i => decide (i ∈ (subscriptionIdsOf (baselineRows ledger t)).toFinset))).trans
        (length_filter_mem_card _ hnd _)
    · exact (length_filter_by_id (baselineRows ledger d)
          (fun i => !decide (i ∈ (subscriptionIdsOf (baselineRows ledger t)).toFinset))).trans
        (length_filter_not_mem_card _ hnd _)

/-- C5 witness: the amended N-day characterization at a concrete one-row
ledger whose baseline id list is duplicate-free. -/
theorem C5_cohort_sets_witness :
    (subscriptionIdsOf (baselineRows [exNewSnapshotRow] 1)).Nodup ∧
      (calculateRetention [exNewSnapshotRow] 1 1).metrics.retained_customers =
        ((subscriptionIdsOf (baselineRows [exNewSnapshotRow] 1)).toFinset ∩
          (subscriptionIdsOf (baselineRows [exNewSnapshotRow] 1)).toFinset).card := by
  have hnd : (subscriptionIdsOf (baselineRows [exNewSnapshotRow] 1)).Nodup := by
    simp [subscriptionIdsOf, baselineRows, exNewSnapshotRow]
  exact ⟨hnd, (C5_cohort_sets.2 [exNewSnapshotRow] 1 1 hnd).1⟩

end StripeDashboard

namespace StripeDashboard

/-- C3 counterexample: a subscription trial-counted on day 1 whose ledger
holds an is_counted row on day 10, not trialing today, but whose customer
has no successful payment: the handler reports it not converted with no
conversion date, although the claim classifies it as converted from the
ledger evidence alone. -/
theorem C3_counterexample :
    processTrialSubscription exTrialLedger 12 [] "sub_trial" 1 =
        some { converted := false, conversion_date := none } ∧
      (∃ r ∈ exTrialLedger, r.stripe_subscription_id = "sub_trial" ∧
        r.is_counted = true ∧ 1 < r.date) ∧
      stillTrialingToday exTrialLedger "sub_trial" 12 = false := by
  refine ⟨rfl, ⟨exCountedSnapshotRow, by simp [exTrialLedger], rfl, rfl, by simp [exCountedSnapshotRow]⟩, rfl⟩

/-- C3 amended: for every trial-cohort subscription not still trialing
today, converted is exactly the result of the payment-history scan for a
captured, non-refunded, non-blocked payment — the scan is always performed,
not a fallback — and the ledger is_counted rows dated on or after
first_trial_date determine only the conversion date of a converted
subscription; the day-1 trial with is_counted observed on day 10 is
reported converted with conversion date day 10 when such a payment
exists. -/
theorem C3_conversion :
    (∀ (ledger : List SnapshotRow) (today : ℕ) (invoices : List Invoice)
        (subId : String) (firstTrialDate : ℕ),
      stillTrialingToday ledger subId today = false →
        processTrialSubscription ledger today invoices subId firstTrialDate =
          some { converted := hasSuccessfulPayment invoices
                 conversion_date :=
                   if hasSuccessfulPayment invoices then
                     firstCountedDateFrom ledger subId firstTrialDate
                   else none }) ∧
      processTrialSubscription exTrialLedger 12 [exPaidInvoice] "sub_trial" 1 =
        some { converted := true, conversion_date := some 10 } := by
  constructor
  · intro ledger today invoices subId firstTrialDate hnot
    simp [processTrialSubscription, hnot]
  · rfl

/-- C3 witness: the amended characterization at the concrete two-row ledger
and one successful invoice. -/
theorem C3_conversion_witness :
    stillTrialingToday exTrialLedger "sub_trial" 12 = false ∧
      processTrialSubscription exTrialLedger 12 [exPaidInvoice] "sub_trial" 1 =
        some { converted := hasSuccessfulPayment [exPaidInvoice]
               conversion_date :=
                 if hasSuccessfulPayment [exPaidInvoice] then
                   firstCountedDateFrom exTrialLedger "sub_trial" 1
                 else none } :=
  ⟨rfl, C3_conversion.1 exTrialLedger 12 [exPaidInvoice] "sub_trial" 1 rfl⟩

end StripeDashboard
